import Mathlib

/-!
# ROGManager, package `thermal`: a shallow embedding of `system/thermal/thermal.go`

The Go file cycles a laptop through thermal profiles.  Each profile bundles a
throttle plan, two optional fan tables and a Windows power plan; `NextProfile`
writes fixed-layout command buffers to an ACPI control interface and then asks
`powercfg` to switch the power plan.

Conventions of the embedding

* a Go `byte` is a `Fin 256`, a `[]byte` is a `List Byte`;
* a Go `int` is an `Int`; the one addition of the file is wrapped to 64 bits;
* a Go `error` is an `Option String` (`none` is the nil error);
* the two collaborators (`atkacpi.ATKControl.Write`, `powercfg.Set`) are an
  environment `Env` that answers every call from the history of calls made so
  far; the calls themselves are recorded, in order, in a trace;
* a run-time panic (division by zero, index out of range, `panic(err)`) is an
  explicit outcome;
* `log.Println` has no effect on the state and is left out.
-/

namespace thermal

/-! ## Bytes and slices -/

/-- A Go `byte`. -/
abbrev Byte := Fin 256

/-- Go `make([]byte, n)`: a slice of `n` zero bytes. -/
def make (n : Nat) : List Byte := List.replicate n 0

/-- Go `copy(dst, src)`: the first `min (len dst) (len src)` elements of `dst`
are overwritten with those of `src`; the length of `dst` does not change. -/
def copy (dst src : List Byte) : List Byte :=
  src.take dst.length ++ dst.drop src.length

/-- Go `copy(dst[i:], src)` seen from `dst`: the prefix `dst[:i]` is kept and
the copy is done into the rest. -/
def copyAt (dst : List Byte) (i : Nat) (src : List Byte) : List Byte :=
  dst.take i ++ copy (dst.drop i) src

/-! ## Constants of `thermal.go` -/

def throttlePlanPerformance : Byte := 0x00

def throttlePlanTurbo : Byte := 0x01

def throttlePlanSilent : Byte := 0x02

def throttlePlanControlByteIndex : Nat := 12

def cpuFanCurveDevice : Byte := 0x24

def gpuFanCurveDevice : Byte := 0x25

def fanCurveControlByteIndex : Nat := 8

def throttlePlanControlByffer : List Byte :=
  [0x44, 0x45, 0x56, 0x53, 0x08, 0x00, 0x00, 0x00,
   0x75, 0x00, 0x12, 0x00, 0x00, 0x00, 0x00, 0x00]

def fanCurveControlBuffer : List Byte :=
  [0x44, 0x45, 0x56, 0x53, 0x14, 0x00, 0x00,
   0x00, 0xFF, 0x00, 0x11, 0x00, 0xFF, 0xFF,
   0xFF, 0xFF, 0xFF, 0xFF, 0xFF, 0xFF, 0xFF,
   0xFF, 0xFF, 0xFF, 0xFF, 0xFF, 0xFF, 0xFF]

/-! ## The fan table (`FanTable`, declared outside `thermal.go`) -/

/-- Modelled from the spec: the type `FanTable` is used by `thermal.go` but
declared in another file of the package.  The spec's data model says a fan
curve is "an ordered sequence of up to 8 breakpoints, each (temperatureCelsius,
speedPercent)". -/
structure FanTable where
  points : List (Nat × Nat)
  le8 : points.length ≤ 8
  deriving DecidableEq

/-- Modelled from the spec: the payload of a stored curve, "two bytes per
breakpoint (temperature, percentage) for up to 8 breakpoints, unused trailing
slots filled with the sentinel value 0xFF". -/
def FanTable.payload (f : FanTable) : List Byte :=
  (f.points.flatMap fun p => [Fin.ofNat p.1, Fin.ofNat p.2])
    ++ List.replicate (16 - 2 * f.points.length) 0xFF

/-- Modelled from the spec: the method `(*FanTable).Bytes`, missing from the
sources, called by `setFanCurve` on a pointer that is nil when the profile has
no curve.  The spec: a stored curve "serializes to a fixed 16-byte payload;
absence of a curve for a profile device yields no payload and the corresponding
device write is skipped". -/
def FanTable.Bytes : Option FanTable → List Byte
  | none => []
  | some f => f.payload

/-- Modelled from the spec: the value of an `<integer>` of an entry, read as
decimal digits (part of the missing `NewFanTable`). -/
def digitsValue (cs : List Char) : Nat :=
  cs.foldl (fun acc c => 10 * acc + (c.toNat - 48)) 0

/-- Modelled from the spec: the entries of "a comma-separated list" (part of
the missing `NewFanTable`). -/
def splitComma : List Char → List (List Char)
  | [] => [[]]
  | c :: cs =>
    match splitComma cs with
    | [] => [[c]]
    | w :: ws => if c = ',' then [] :: w :: ws else (c :: w) :: ws

/-- Modelled from the spec: one entry "of the form `<integer>c:<integer>%`";
"malformed entry (missing `c`/`%`, non-integer value) fails". -/
def parseEntry (cs : List Char) : Option (Nat × Nat) :=
  let t := cs.takeWhile Char.isDigit
  match cs.dropWhile Char.isDigit with
  | 'c' :: ':' :: rest =>
    let p := rest.takeWhile Char.isDigit
    match rest.dropWhile Char.isDigit with
    | ['%'] => if t = [] ∨ p = [] then none else some (digitsValue t, digitsValue p)
    | _ => none
  | _ => none

/-- Modelled from the spec: all entries in the order given, or `none` when one
of them is malformed (part of the missing `NewFanTable`). -/
def parseEntries : List (List Char) → Option (List (Nat × Nat))
  | [] => some []
  | e :: es =>
    match parseEntry e, parseEntries es with
    | some p, some ps => some (p :: ps)
    | _, _ => none

/-- Modelled from the spec: the constructor `NewFanTable`, missing from the
sources.  The spec: "a comma-separated list of entries of the form
`<integer>c:<integer>%`", "between 1 and 8 entries", stored "in the order
given"; a malformed entry or more than 8 entries is a `ParseError`. -/
def NewFanTable (curve : String) : Except String FanTable :=
  match parseEntries (splitComma curve.toList) with
  | none => .error "ParseError"
  | some ps =>
    if h : ps.length ≤ 8 then .ok ⟨ps, h⟩ else .error "ParseError"

/-! ## Profiles and the manager -/

structure thermalProfile where
  name : String
  windowsPowerPlan : String
  throttlePlan : Byte
  cpuFanCurve : Option FanTable
  gpuFanCurve : Option FanTable
  deriving DecidableEq

/-- The manager.  Its two handles `controlInterface` and `powercfg` are the
external collaborators; what is done through them is recorded in the trace. -/
structure Thermal where
  profiles : List thermalProfile
  currentProfile : Int
  deriving DecidableEq

/-! ## The external collaborators -/

/-- A call made through one of the two handles of the manager. -/
inductive Call where
  | controlWrite (inputBuf : List Byte)
  | powercfgSet (plan : String)
  | powercfgDefault
  deriving DecidableEq

/-- The environment: given the calls made so far and the call being made, the
error it returns (`none` is success). -/
abbrev Env := List Call → Call → Option String

/-- Make one external call: it is appended to the trace and the environment
answers it. -/
def perform (env : Env) (tr : List Call) (c : Call) : List Call × Option String :=
  (tr ++ [c], env tr c)

/-- What a Go function returning `(string, error)` does: it panics or returns. -/
inductive Outcome where
  | panic
  | ret (name : String) (err : Option String)
  deriving DecidableEq

/-- Two's complement wrap-around of a Go `int` (64 bits). -/
def wrapInt64 (x : Int) : Int := (x + 2 ^ 63) % 2 ^ 64 - 2 ^ 63

/-! ## `NewThermal` and `Default` -/

/-- `NewThermal`; the results of `atkacpi.NewAtkControl(controlCode)` and of
`NewPowerCfg(nil)` are its arguments. -/
def NewThermal (ctrl power : Except String Unit) : Except String Thermal :=
  match ctrl with
  | .error err => .error err
  | .ok _ =>
    match power with
    | .error err => .error err
    | .ok _ => .ok ⟨[], -1⟩

/-- One row of the table `defaults` of `Default`. -/
structure defaultRow where
  name : String
  windowsPowerPlan : String
  throttlePlan : Byte
  cpuFanCurve : String
  gpuFanCurve : String

/-- The table `defaults` of `Default`; a field left out in Go is the empty string. -/
def defaults : List defaultRow :=
  [ ⟨"Fanless", "Power saver", throttlePlanSilent,
      "39c:0%,49c:0%,59c:0%,69c:0%,79c:31%,89c:49%,99c:56%,109c:56%",
      "39c:0%,49c:0%,59c:0%,69c:0%,79c:34%,89c:51%,99c:61%,109c:61%"⟩,
    ⟨"Silent", "Power saver", throttlePlanSilent,
      "39c:10%,49c:10%,59c:10%,69c:10%,79c:31%,89c:49%,99c:56%,109c:56%",
      "39c:0%,49c:0%,59c:0%,69c:0%,79c:34%,89c:51%,99c:61%,109c:61%"⟩,
    ⟨"Performance", "High performance", throttlePlanPerformance, "", ""⟩,
    ⟨"Turbo", "High performance", throttlePlanTurbo, "", ""⟩ ]

/-- The body of the loop of `Default` for one row `d`: the profile that is
appended, or `none` when `panic(err)` is reached.  As in the source, the GPU
table is built by `NewFanTable(d.cpuFanCurve)`. -/
def defaultProfile (d : defaultRow) : Option thermalProfile :=
  let profile : thermalProfile := ⟨d.name, d.windowsPowerPlan, d.throttlePlan, none, none⟩
  let afterCpu : Option thermalProfile :=
    if d.cpuFanCurve ≠ "" then
      match NewFanTable d.cpuFanCurve with
      | .error _ => none
      | .ok cpuTable => some { profile with cpuFanCurve := some cpuTable }
    else some profile
  match afterCpu with
  | none => none
  | some profile =>
    if d.gpuFanCurve ≠ "" then
      match NewFanTable d.cpuFanCurve with
      | .error _ => none
      | .ok gpuTable => some { profile with gpuFanCurve := some gpuTable }
    else some profile

/-- The loop `for _, d := range defaults` of `Default`: every profile is
appended to `t.profiles`. -/
def defaultLoop : List defaultRow → List thermalProfile → Option (List thermalProfile)
  | [], profiles => some profiles
  | d :: ds, profiles =>
    match defaultProfile d with
    | none => none
    | some profile => defaultLoop ds (profiles ++ [profile])

/-- `(*Thermal).Default`: `none` is a panic.  `currentProfile` is not assigned. -/
def Default (t : Thermal) (tr : List Call) : Option (Thermal × List Call) :=
  match defaultLoop defaults t.profiles with
  | none => none
  | some profiles => some ({ t with profiles := profiles }, tr ++ [Call.powercfgDefault])

/-! ## Applying a profile -/

/-- `(*Thermal).setPowerPlan`. -/
def setPowerPlan (env : Env) (profile : thermalProfile) (tr : List Call) :
    List Call × Option String :=
  let inputBuf := make 16
  let inputBuf := copy inputBuf throttlePlanControlByffer
  let inputBuf := inputBuf.set throttlePlanControlByteIndex profile.throttlePlan
  match perform env tr (Call.controlWrite inputBuf) with
  | (tr, some err) => (tr, some err)
  | (tr, none) => (tr, none)

/-- `(*Thermal).setFan`. -/
def setFan (env : Env) (device : Byte) (curve : List Byte) (tr : List Call) :
    List Call × Option String :=
  if curve.length ≠ 16 then (tr, none)
  else
    let inputBuf := make 28
    let inputBuf := copy inputBuf fanCurveControlBuffer
    let inputBuf := inputBuf.set fanCurveControlByteIndex device
    let inputBuf := copyAt inputBuf 12 curve
    match perform env tr (Call.controlWrite inputBuf) with
    | (tr, some err) => (tr, some err)
    | (tr, none) => (tr, none)

/-- `(*Thermal).setFanCurve`. -/
def setFanCurve (env : Env) (profile : thermalProfile) (tr : List Call) :
    List Call × Option String :=
  match setFan env cpuFanCurveDevice (FanTable.Bytes profile.cpuFanCurve) tr with
  | (tr, some err) => (tr, some err)
  | (tr, none) =>
    match setFan env gpuFanCurveDevice (FanTable.Bytes profile.gpuFanCurve) tr with
    | (tr, some err) => (tr, some err)
    | (tr, none) => (tr, none)

/-- The index `next := (t.currentProfile + 1) % len(t.profiles)` of
`NextProfile`, for a non-empty list: Go's `%` truncates towards zero. -/
def nextIndex (t : Thermal) : Int :=
  Int.tmod (wrapInt64 (t.currentProfile + 1)) t.profiles.length

/-- `(*Thermal).NextProfile`: the manager, the trace and the outcome after the
call.  The remainder by `len(t.profiles) = 0` and an index outside the list are
run-time panics. -/
def NextProfile (env : Env) (t : Thermal) (tr : List Call) :
    Thermal × List Call × Outcome :=
  if t.profiles.length = 0 then (t, tr, Outcome.panic)
  else
    let next := nextIndex t
    if next < 0 then (t, tr, Outcome.panic)
    else
      match t.profiles[next.toNat]? with
      | none => (t, tr, Outcome.panic)
      | some profile =>
        match setPowerPlan env profile tr with
        | (tr, some err) => (t, tr, Outcome.ret "" (some err))
        | (tr, none) =>
          match setFanCurve env profile tr with
          | (tr, some err) => (t, tr, Outcome.ret "" (some err))
          | (tr, none) =>
            match perform env tr (Call.powercfgSet profile.windowsPowerPlan) with
            | (tr, some err) => (t, tr, Outcome.ret "" (some err))
            | (tr, none) =>
              ({ t with currentProfile := next }, tr, Outcome.ret profile.name none)

/-- The outcomes of `k` successive calls of `NextProfile`, first call first,
with the manager and the trace after the last of them. -/
def nextProfileTimes (env : Env) : Nat → Thermal → List Call →
    Thermal × List Call × List Outcome
  | 0, t, tr => (t, tr, [])
  | k + 1, t, tr =>
    let r := NextProfile env t tr
    let rest := nextProfileTimes env k r.1 r.2.1
    (rest.1, rest.2.1, r.2.2 :: rest.2.2)

/-! ## The command buffers, evaluated -/

/-- The buffer built by `setPowerPlan`. -/
def throttleCommand (plan : Byte) : List Byte :=
  (copy (make 16) throttlePlanControlByffer).set throttlePlanControlByteIndex plan

/-- The buffer built by `setFan`. -/
def fanCommand (device : Byte) (curve : List Byte) : List Byte :=
  copyAt ((copy (make 28) fanCurveControlBuffer).set fanCurveControlByteIndex device) 12 curve

/-! ## Definitions used in the statements -/

/-- The calls of a list made in order, stopping after the first that fails:
the trace and the error of the failing call (`none` when all succeeded). -/
def performAll (env : Env) : List Call → List Call → List Call × Option String
  | tr, [] => (tr, none)
  | tr, c :: cs =>
    match env tr c with
    | some err => (tr ++ [c], some err)
    | none => performAll env (tr ++ [c]) cs

/-- The write `setFan` makes for a device: none when the curve is not 16 bytes. -/
def fanCalls (device : Byte) (curve : List Byte) : List Call :=
  if curve.length = 16 then [Call.controlWrite (fanCommand device curve)] else []

/-- The steps of `NextProfile` for a profile, in the order of the source: the
throttle-plan write, the CPU fan write, the GPU fan write, the power plan. -/
def profileCalls (profile : thermalProfile) : List Call :=
  Call.controlWrite (throttleCommand profile.throttlePlan) ::
    (fanCalls cpuFanCurveDevice (FanTable.Bytes profile.cpuFanCurve) ++
      (fanCalls gpuFanCurveDevice (FanTable.Bytes profile.gpuFanCurve) ++
        [Call.powercfgSet profile.windowsPowerPlan]))

/-- The throttle-plan write of a profile. -/
def throttleWrite (profile : thermalProfile) : Call :=
  Call.controlWrite (throttleCommand profile.throttlePlan)

/-- The fan-curve write of a device for a stored table. -/
def fanWrite (device : Byte) (table : FanTable) : Call :=
  Call.controlWrite (fanCommand device (FanTable.Bytes (some table)))

/-- The power-plan activation of a profile. -/
def powerPlanCall (profile : thermalProfile) : Call :=
  Call.powercfgSet profile.windowsPowerPlan

/-- The invariant of the manager: `currentProfile` is -1 or an index of the
profile list. -/
def indexInvariant (t : Thermal) : Prop :=
  t.currentProfile = -1 ∨ (0 ≤ t.currentProfile ∧ t.currentProfile < t.profiles.length)

instance (t : Thermal) : Decidable (indexInvariant t) := by
  unfold indexInvariant
  infer_instance

/-! ## The profiles `Default` builds, evaluated -/

/-- The table of the literal
`39c:0%,49c:0%,59c:0%,69c:0%,79c:31%,89c:49%,99c:56%,109c:56%`. -/
def fanlessCpuTable : FanTable :=
  ⟨[(39, 0), (49, 0), (59, 0), (69, 0), (79, 31), (89, 49), (99, 56), (109, 56)], by decide⟩

/-- The table of the literal
`39c:10%,49c:10%,59c:10%,69c:10%,79c:31%,89c:49%,99c:56%,109c:56%`. -/
def silentCpuTable : FanTable :=
  ⟨[(39, 10), (49, 10), (59, 10), (69, 10), (79, 31), (89, 49), (99, 56), (109, 56)],
    by decide⟩

/-- The table of the literal
`39c:0%,49c:0%,59c:0%,69c:0%,79c:34%,89c:51%,99c:61%,109c:61%`. -/
def gpuLiteralTable : FanTable :=
  ⟨[(39, 0), (49, 0), (59, 0), (69, 0), (79, 34), (89, 51), (99, 61), (109, 61)], by decide⟩

/-- The four profiles `Default` builds, as the code builds them. -/
def builtProfiles : List thermalProfile :=
  [ ⟨"Fanless", "Power saver", throttlePlanSilent, some fanlessCpuTable, some fanlessCpuTable⟩,
    ⟨"Silent", "Power saver", throttlePlanSilent, some silentCpuTable, some silentCpuTable⟩,
    ⟨"Performance", "High performance", throttlePlanPerformance, none, none⟩,
    ⟨"Turbo", "High performance", throttlePlanTurbo, none, none⟩ ]

/-! ## Sample data for the witnesses -/

/-- A table with one breakpoint, `60c:30%`. -/
def sampleTable : FanTable := ⟨[(60, 30)], by decide⟩

/-- A profile with both curves. -/
def sampleProfile : thermalProfile :=
  ⟨"A", "Balanced", throttlePlanSilent, some sampleTable, some sampleTable⟩

/-- A profile without curves. -/
def bareProfile : thermalProfile :=
  ⟨"B", "High performance", throttlePlanTurbo, none, none⟩

/-- The environment in which every call succeeds. -/
def okEnv : Env := fun _ _ => none

/-- The environment in which the call `c` fails with `e` and every other call
succeeds. -/
def failOn (c : Call) (e : String) : Env := fun _ d => if d = c then some e else none

/-- A profile with a CPU curve and no GPU curve. -/
def cpuOnlyProfile : thermalProfile :=
  ⟨"C", "Balanced", throttlePlanPerformance, some sampleTable, none⟩

/-! # Theorems -/

theorem throttleCommand_eq (p : Byte) :
    throttleCommand p =
      [0x44, 0x45, 0x56, 0x53, 0x08, 0x00, 0x00, 0x00,
       0x75, 0x00, 0x12, 0x00, p, 0x00, 0x00, 0x00] := by
  rfl

theorem fanCommand_eq (device : Byte) (curve : List Byte) (h : curve.length = 16) :
    fanCommand device curve =
      [0x44, 0x45, 0x56, 0x53, 0x14, 0x00, 0x00, 0x00, device, 0x00, 0x11, 0x00] ++ curve := by
  have h1 : (copy (make 28) fanCurveControlBuffer).set fanCurveControlByteIndex device =
      [0x44, 0x45, 0x56, 0x53, 0x14, 0x00, 0x00, 0x00, device, 0x00, 0x11, 0x00,
       0xFF, 0xFF, 0xFF, 0xFF, 0xFF, 0xFF, 0xFF, 0xFF,
       0xFF, 0xFF, 0xFF, 0xFF, 0xFF, 0xFF, 0xFF, 0xFF] := rfl
  unfold fanCommand
  rw [h1]
  simp [copyAt, copy, h, List.take_of_length_le]

theorem setPowerPlan_eq (env : Env) (profile : thermalProfile) (tr : List Call) :
    setPowerPlan env profile tr =
      perform env tr (Call.controlWrite (throttleCommand profile.throttlePlan)) := by
  unfold setPowerPlan throttleCommand
  simp only []
  split <;> simp_all

theorem setFan_eq (env : Env) (device : Byte) (curve : List Byte) (tr : List Call)
    (h : curve.length = 16) :
    setFan env device curve tr = perform env tr (Call.controlWrite (fanCommand device curve)) := by
  unfold setFan fanCommand
  simp only [h, ne_eq, not_true_eq_false, if_false]
  split <;> simp_all

theorem setFan_skip (env : Env) (device : Byte) (curve : List Byte) (tr : List Call)
    (h : curve.length ≠ 16) : setFan env device curve tr = (tr, none) := by
  unfold setFan
  simp [h]

/-! ## The calls of `NextProfile` as a sequence of steps -/

theorem performAll_append (env : Env) (as bs : List Call) (tr : List Call) :
    performAll env tr (as ++ bs) =
      match performAll env tr as with
      | (tr1, some err) => (tr1, some err)
      | (tr1, none) => performAll env tr1 bs := by
  induction as generalizing tr with
  | nil => simp [performAll]
  | cons a as ih =>
    simp only [List.cons_append, performAll]
    cases h : env tr a with
    | some err => simp
    | none => simpa using ih (tr ++ [a])

theorem performAll_ok (env : Env) (cs tr : List Call)
    (h : ∀ hist c, c ∈ cs → env hist c = none) :
    performAll env tr cs = (tr ++ cs, none) := by
  induction cs generalizing tr with
  | nil => simp [performAll]
  | cons c cs ih =>
    have hc : env tr c = none := h tr c (List.mem_cons_self c cs)
    simp only [performAll, hc]
    rw [ih (tr ++ [c]) (fun hist d hd => h hist d (List.mem_cons_of_mem c hd))]
    simp

theorem performAll_fail (env : Env) (done later : List Call) (c : Call) (tr : List Call)
    (e : String) (hdone : performAll env tr done = (tr ++ done, none))
    (hfail : env (tr ++ done) c = some e) :
    performAll env tr (done ++ c :: later) = (tr ++ done ++ [c], some e) := by
  rw [performAll_append, hdone]
  simp [performAll, hfail]

/-- The trace of `performAll` extends the old one by a prefix of the calls;
when no call failed it is all of them. -/
theorem performAll_trace (env : Env) (cs tr : List Call) :
    ∃ n, (performAll env tr cs).1 = tr ++ cs.take n ∧
      ((performAll env tr cs).2 = none → (performAll env tr cs).1 = tr ++ cs) ∧
      (cs ≠ [] → 0 < n) := by
  induction cs generalizing tr with
  | nil => exact ⟨0, by simp [performAll], by simp [performAll], by simp⟩
  | cons c cs ih =>
    cases h : env tr c with
    | some err =>
      refine ⟨1, ?_, ?_, ?_⟩ <;> simp [performAll, h]
    | none =>
      obtain ⟨n, h1, h2, _⟩ := ih (tr ++ [c])
      refine ⟨n + 1, ?_, ?_, ?_⟩
      · simp [performAll, h, h1]
      · intro h3
        simp only [performAll, h] at h3 ⊢
        simpa using h2 h3
      · simp

theorem setFan_eq_performAll (env : Env) (device : Byte) (curve : List Byte) (tr : List Call) :
    setFan env device curve tr = performAll env tr (fanCalls device curve) := by
  by_cases h : curve.length = 16
  · rw [setFan_eq env device curve tr h]
    simp only [fanCalls, h, if_true, performAll, perform]
    cases env tr (Call.controlWrite (fanCommand device curve)) <;> rfl
  · rw [setFan_skip env device curve tr h]
    simp [fanCalls, h, performAll]

theorem setFanCurve_eq_performAll (env : Env) (profile : thermalProfile) (tr : List Call) :
    setFanCurve env profile tr =
      performAll env tr
        (fanCalls cpuFanCurveDevice (FanTable.Bytes profile.cpuFanCurve) ++
          fanCalls gpuFanCurveDevice (FanTable.Bytes profile.gpuFanCurve)) := by
  unfold setFanCurve
  rw [performAll_append, setFan_eq_performAll]
  rcases h1 : performAll env tr (fanCalls cpuFanCurveDevice (FanTable.Bytes profile.cpuFanCurve))
    with ⟨tr1, _ | e1⟩
  · simp only []
    rw [setFan_eq_performAll]
    rcases performAll env tr1 (fanCalls gpuFanCurveDevice (FanTable.Bytes profile.gpuFanCurve))
      with ⟨tr2, _ | e2⟩ <;> rfl
  · rfl

/-- `NextProfile`, once the profile at `next` has been read: its steps are made
in order until one fails; the manager changes only when none failed. -/
theorem NextProfile_eq (env : Env) (t : Thermal) (tr : List Call) (profile : thermalProfile)
    (hnext : 0 ≤ nextIndex t) (hp : t.profiles[(nextIndex t).toNat]? = some profile) :
    NextProfile env t tr =
      match performAll env tr (profileCalls profile) with
      | (tr1, some err) => (t, tr1, Outcome.ret "" (some err))
      | (tr1, none) =>
        ({ t with currentProfile := nextIndex t }, tr1, Outcome.ret profile.name none) := by
  have hlen : t.profiles.length ≠ 0 := by
    intro h0
    have := List.length_eq_zero.mp h0
    rw [this] at hp
    simp at hp
  unfold NextProfile
  simp only [hlen, if_false, not_lt.mpr hnext, hp]
  rw [setPowerPlan_eq]
  unfold profileCalls
  simp only [performAll, perform]
  cases h1 : env tr (Call.controlWrite (throttleCommand profile.throttlePlan)) with
  | some e1 => rfl
  | none =>
    simp only []
    rw [setFanCurve_eq_performAll, ← List.append_assoc,
      performAll_append env
        (fanCalls cpuFanCurveDevice (FanTable.Bytes profile.cpuFanCurve) ++
          fanCalls gpuFanCurveDevice (FanTable.Bytes profile.gpuFanCurve))
        [Call.powercfgSet profile.windowsPowerPlan]]
    generalize performAll env (tr ++ [Call.controlWrite (throttleCommand profile.throttlePlan)])
      (fanCalls cpuFanCurveDevice (FanTable.Bytes profile.cpuFanCurve) ++
        fanCalls gpuFanCurveDevice (FanTable.Bytes profile.gpuFanCurve)) = r
    rcases r with ⟨tr2, _ | e2⟩
    · simp only [performAll]
      cases env tr2 (Call.powercfgSet profile.windowsPowerPlan) <;> rfl
    · rfl

/-- Without wrap-around and below the length of the list, `next` is the
mathematical remainder. -/
theorem nextIndex_eq (t : Thermal) (hlo : -1 ≤ t.currentProfile)
    (hhi : t.currentProfile < t.profiles.length)
    (hlen : t.profiles.length < 2 ^ 63) :
    nextIndex t = (t.currentProfile + 1) % (t.profiles.length : Int) := by
  have hl : (t.profiles.length : Int) < 2 ^ 63 := by exact_mod_cast hlen
  have hw : wrapInt64 (t.currentProfile + 1) = t.currentProfile + 1 := by
    unfold wrapInt64
    omega
  unfold nextIndex
  rw [hw]
  exact Int.tmod_eq_emod (by omega) (by omega)

/-! ## Facts shared by the claims on `NextProfile` -/

/-- A stored curve always serializes to 16 bytes. -/
theorem FanTable.payload_length (f : FanTable) : f.payload.length = 16 := by
  have h2 : ∀ ps : List (Nat × Nat),
      (ps.flatMap fun p => [(Fin.ofNat p.1 : Byte), Fin.ofNat p.2]).length = 2 * ps.length := by
    intro ps
    induction ps with
    | nil => rfl
    | cons p ps ih =>
      simp only [List.flatMap_cons, List.length_append, List.length_cons, List.length_nil, ih]
      omega
  have h8 := f.le8
  unfold FanTable.payload
  rw [List.length_append, h2, List.length_replicate]
  omega

theorem fanCalls_some (device : Byte) (table : FanTable) :
    fanCalls device (FanTable.Bytes (some table)) = [fanWrite device table] := by
  simp [fanCalls, fanWrite, FanTable.Bytes, FanTable.payload_length]

theorem fanCalls_none (device : Byte) : fanCalls device (FanTable.Bytes none) = [] := by
  simp [fanCalls, FanTable.Bytes]

theorem fanCommand_device (device : Byte) (table : FanTable) :
    (fanCommand device (FanTable.Bytes (some table)))[8]? = some device := by
  show (fanCommand device table.payload)[8]? = some device
  rw [fanCommand_eq device _ (FanTable.payload_length table)]
  rfl

theorem fanCommand_length (device : Byte) (table : FanTable) :
    (fanCommand device (FanTable.Bytes (some table))).length = 28 := by
  show (fanCommand device table.payload).length = 28
  rw [fanCommand_eq device _ (FanTable.payload_length table)]
  simp [FanTable.payload_length]

/-- The trace after `NextProfile` is the trace of its steps. -/
theorem NextProfile_trace (env : Env) (t : Thermal) (tr : List Call) (profile : thermalProfile)
    (hnext : 0 ≤ nextIndex t) (hp : t.profiles[(nextIndex t).toNat]? = some profile) :
    (NextProfile env t tr).2.1 = (performAll env tr (profileCalls profile)).1 := by
  rw [NextProfile_eq env t tr profile hnext hp]
  rcases performAll env tr (profileCalls profile) with ⟨tr1, _ | e⟩ <;> rfl

/-- The outcome of `NextProfile` is decided by the result of its steps. -/
theorem NextProfile_outcome (env : Env) (t : Thermal) (tr : List Call) (profile : thermalProfile)
    (hnext : 0 ≤ nextIndex t) (hp : t.profiles[(nextIndex t).toNat]? = some profile) :
    (NextProfile env t tr).2.2 =
      match (performAll env tr (profileCalls profile)).2 with
      | some err => Outcome.ret "" (some err)
      | none => Outcome.ret profile.name none := by
  rw [NextProfile_eq env t tr profile hnext hp]
  rcases performAll env tr (profileCalls profile) with ⟨tr1, _ | e⟩ <;> rfl

/-- The manager after `NextProfile` is decided by the result of its steps. -/
theorem NextProfile_manager (env : Env) (t : Thermal) (tr : List Call) (profile : thermalProfile)
    (hnext : 0 ≤ nextIndex t) (hp : t.profiles[(nextIndex t).toNat]? = some profile) :
    (NextProfile env t tr).1 =
      match (performAll env tr (profileCalls profile)).2 with
      | some _ => t
      | none => { t with currentProfile := nextIndex t } := by
  rw [NextProfile_eq env t tr profile hnext hp]
  rcases performAll env tr (profileCalls profile) with ⟨tr1, _ | e⟩ <;> rfl

/-- Four calls in a row all succeed exactly when each is answered without error. -/
theorem performAll_four (env : Env) (tr : List Call) (a b c d : Call) :
    (performAll env tr [a, b, c, d]).2 = none ↔
      env tr a = none ∧ env (tr ++ [a]) b = none ∧ env (tr ++ [a, b]) c = none ∧
        env (tr ++ [a, b, c]) d = none := by
  simp only [performAll, List.append_assoc, List.cons_append, List.nil_append]
  cases h1 : env tr a <;> cases h2 : env (tr ++ [a]) b <;>
    cases h3 : env (tr ++ [a, b]) c <;> cases h4 : env (tr ++ [a, b, c]) d <;> simp

/-- A call of `NextProfile` in which every step succeeds. -/
theorem NextProfile_ok (env : Env) (hok : ∀ hist c, env hist c = none) (t : Thermal)
    (tr : List Call) (profile : thermalProfile)
    (hnext : 0 ≤ nextIndex t) (hp : t.profiles[(nextIndex t).toNat]? = some profile) :
    NextProfile env t tr =
      ({ t with currentProfile := nextIndex t }, tr ++ profileCalls profile,
        Outcome.ret profile.name none) := by
  rw [NextProfile_eq env t tr profile hnext hp,
    performAll_ok env _ tr (fun hist c _ => hok hist c)]

/-! ## C1, C2: layout of the two command buffers -/

/-- C1: whatever the throttle-plan byte of the profile, `setPowerPlan` makes
exactly one control-channel write; the buffer written has length 16, its byte
at index 12 is the throttle-plan byte, and every other byte is the byte of the
template `44 45 56 53 08 00 00 00 75 00 12 00 00 00 00 00` at the same index.
The three known plans are the bytes 0, 1 and 2. -/
theorem setPowerPlan_writes_patched_template (env : Env) (profile : thermalProfile)
    (tr : List Call) :
    ∃ buf : List Byte,
      setPowerPlan env profile tr
        = (tr ++ [Call.controlWrite buf], env tr (Call.controlWrite buf)) ∧
      buf.length = 16 ∧
      buf[12]? = some profile.throttlePlan ∧
      (∀ i : Nat, i < 16 ∧ i ≠ 12 → buf[i]? = throttlePlanControlByffer[i]?) ∧
      throttlePlanControlByffer =
        [0x44, 0x45, 0x56, 0x53, 0x08, 0x00, 0x00, 0x00,
         0x75, 0x00, 0x12, 0x00, 0x00, 0x00, 0x00, 0x00] ∧
      throttlePlanPerformance = 0x00 ∧ throttlePlanTurbo = 0x01 ∧ throttlePlanSilent = 0x02 := by
  refine ⟨throttleCommand profile.throttlePlan, ?_, ?_, ?_, ?_, rfl, rfl, rfl, rfl⟩
  · rw [setPowerPlan_eq]; rfl
  · rw [throttleCommand_eq]; rfl
  · rw [throttleCommand_eq]; rfl
  · rintro i ⟨hi, hne⟩
    rw [throttleCommand_eq]
    interval_cases i <;> first | rfl | exact absurd rfl hne

/-- C2: for every device byte and every curve payload of 16 bytes, `setFan`
makes exactly one control-channel write; the buffer written has length 28, its
byte at index 8 is the device byte, its bytes 12..27 are the payload, and its
bytes 0..7 and 9..11 are those of the fan-curve template.  The CPU device is
0x24 and the GPU device is 0x25. -/
theorem setFan_writes_patched_template (env : Env) (device : Byte) (curve : List Byte)
    (tr : List Call) (h : curve.length = 16) :
    ∃ buf : List Byte,
      setFan env device curve tr
        = (tr ++ [Call.controlWrite buf], env tr (Call.controlWrite buf)) ∧
      buf.length = 28 ∧
      buf[8]? = some device ∧
      buf.drop 12 = curve ∧
      (∀ j : Nat, j < 16 → buf[12 + j]? = curve[j]?) ∧
      (∀ i : Nat, i < 8 ∨ (9 ≤ i ∧ i < 12) → buf[i]? = fanCurveControlBuffer[i]?) ∧
      cpuFanCurveDevice = 0x24 ∧ gpuFanCurveDevice = 0x25 := by
  refine ⟨fanCommand device curve, ?_, ?_, ?_, ?_, ?_, ?_, rfl, rfl⟩
  · rw [setFan_eq env device curve tr h]; rfl
  · rw [fanCommand_eq device curve h]; simp [h]
  · rw [fanCommand_eq device curve h]; rfl
  · rw [fanCommand_eq device curve h]; rfl
  · intro j _
    rw [fanCommand_eq device curve h]
    exact List.getElem?_append_right (by simp)  |>.trans (by simp)
  · intro i hi
    rw [fanCommand_eq device curve h]
    have hi12 : i < 12 := by omega
    interval_cases i <;> first | rfl | omega | simp [fanCurveControlBuffer]

/-- Witness of C2: the CPU device and the payload `0, 1, ..., 15`. -/
theorem setFan_writes_patched_template_witness :
    ∃ buf : List Byte,
      setFan (fun _ _ => none) cpuFanCurveDevice
          [0, 1, 2, 3, 4, 5, 6, 7, 8, 9, 10, 11, 12, 13, 14, 15] []
        = ([Call.controlWrite buf], none) ∧
      buf = [0x44, 0x45, 0x56, 0x53, 0x14, 0x00, 0x00, 0x00, 0x24, 0x00, 0x11, 0x00,
             0, 1, 2, 3, 4, 5, 6, 7, 8, 9, 10, 11, 12, 13, 14, 15] := by
  obtain ⟨buf, h1, _, _, _, _, _, _, _⟩ :=
    setFan_writes_patched_template (fun _ _ => none) cpuFanCurveDevice
      [0, 1, 2, 3, 4, 5, 6, 7, 8, 9, 10, 11, 12, 13, 14, 15] [] rfl
  refine ⟨buf, h1, ?_⟩
  have h2 : setFan (fun _ _ => none) cpuFanCurveDevice
      [0, 1, 2, 3, 4, 5, 6, 7, 8, 9, 10, 11, 12, 13, 14, 15] []
      = ([Call.controlWrite [0x44, 0x45, 0x56, 0x53, 0x14, 0x00, 0x00, 0x00, 0x24, 0x00, 0x11,
          0x00, 0, 1, 2, 3, 4, 5, 6, 7, 8, 9, 10, 11, 12, 13, 14, 15]], none) := by decide
  rw [h2] at h1
  simpa using (congrArg Prod.fst h1).symm

/-! ## C4, C5, C6: order of the steps, failure, absent curves -/

/-- C4: when `NextProfile` advances to a profile that has both fan curves, the
calls it makes are a non-empty prefix of: throttle-plan write, CPU fan write
(byte 8 = 0x24), GPU fan write (byte 8 = 0x25), power-plan activation with the
profile's `windowsPowerPlan`; so nothing precedes the throttle-plan write.  A
successful call makes exactly these four, each answered without error, and sets
`currentProfile` to `next`; a call that returns an error leaves the manager as
it was; and when the four calls succeed the call succeeds. -/
theorem NextProfile_order_of_calls (env : Env) (t : Thermal) (tr : List Call)
    (profile : thermalProfile) (cpu gpu : FanTable)
    (hnext : 0 ≤ nextIndex t) (hp : t.profiles[(nextIndex t).toNat]? = some profile)
    (hcpu : profile.cpuFanCurve = some cpu) (hgpu : profile.gpuFanCurve = some gpu) :
    (∃ n, 0 < n ∧
      (NextProfile env t tr).2.1 =
        tr ++ [throttleWrite profile, fanWrite cpuFanCurveDevice cpu,
          fanWrite gpuFanCurveDevice gpu, powerPlanCall profile].take n) ∧
    (∀ name, (NextProfile env t tr).2.2 = Outcome.ret name none →
      (NextProfile env t tr).2.1 =
        tr ++ [throttleWrite profile, fanWrite cpuFanCurveDevice cpu,
          fanWrite gpuFanCurveDevice gpu, powerPlanCall profile] ∧
      env tr (throttleWrite profile) = none ∧
      env (tr ++ [throttleWrite profile]) (fanWrite cpuFanCurveDevice cpu) = none ∧
      env (tr ++ [throttleWrite profile, fanWrite cpuFanCurveDevice cpu])
        (fanWrite gpuFanCurveDevice gpu) = none ∧
      env (tr ++ [throttleWrite profile, fanWrite cpuFanCurveDevice cpu,
        fanWrite gpuFanCurveDevice gpu]) (powerPlanCall profile) = none ∧
      (NextProfile env t tr).1.currentProfile = nextIndex t ∧
      name = profile.name) ∧
    (∀ name e, (NextProfile env t tr).2.2 = Outcome.ret name (some e) →
      (NextProfile env t tr).1 = t) ∧
    (env tr (throttleWrite profile) = none →
      env (tr ++ [throttleWrite profile]) (fanWrite cpuFanCurveDevice cpu) = none →
      env (tr ++ [throttleWrite profile, fanWrite cpuFanCurveDevice cpu])
        (fanWrite gpuFanCurveDevice gpu) = none →
      env (tr ++ [throttleWrite profile, fanWrite cpuFanCurveDevice cpu,
        fanWrite gpuFanCurveDevice gpu]) (powerPlanCall profile) = none →
      (NextProfile env t tr).2.2 = Outcome.ret profile.name none) ∧
    (∃ b1 b2 b3, throttleWrite profile = Call.controlWrite b1 ∧
      fanWrite cpuFanCurveDevice cpu = Call.controlWrite b2 ∧
      fanWrite gpuFanCurveDevice gpu = Call.controlWrite b3 ∧
      b1.length = 16 ∧ b1[12]? = some profile.throttlePlan ∧
      b2.length = 28 ∧ b2[8]? = some 0x24 ∧ b3.length = 28 ∧ b3[8]? = some 0x25) := by
  have hcalls : profileCalls profile =
      [throttleWrite profile, fanWrite cpuFanCurveDevice cpu,
        fanWrite gpuFanCurveDevice gpu, powerPlanCall profile] := by
    unfold profileCalls
    rw [hcpu, hgpu, fanCalls_some, fanCalls_some]
    rfl
  have htr := NextProfile_trace env t tr profile hnext hp
  have hout := NextProfile_outcome env t tr profile hnext hp
  have hman := NextProfile_manager env t tr profile hnext hp
  obtain ⟨n, h1, h2, h3⟩ := performAll_trace env (profileCalls profile) tr
  have hfour := performAll_four env tr (throttleWrite profile) (fanWrite cpuFanCurveDevice cpu)
    (fanWrite gpuFanCurveDevice gpu) (powerPlanCall profile)
  rw [← hcalls] at hfour ⊢
  refine ⟨⟨n, h3 (by simp [profileCalls]), by rw [htr, h1]⟩, ?_, ?_, ?_, ?_⟩
  · intro name hname
    rw [hout] at hname
    cases hres : (performAll env tr (profileCalls profile)).2 with
    | some e => rw [hres] at hname; simp at hname
    | none =>
      rw [hres] at hname
      simp only [Outcome.ret.injEq, and_true] at hname
      obtain ⟨e1, e2, e3, e4⟩ := hfour.mp hres
      refine ⟨by rw [htr]; exact h2 hres, e1, e2, e3, e4, ?_, hname.symm⟩
      rw [hman, hres]
  · intro name e hname
    rw [hout] at hname
    cases hres : (performAll env tr (profileCalls profile)).2 with
    | some e1 => rw [hman, hres]
    | none => rw [hres] at hname; simp at hname
  · intro e1 e2 e3 e4
    rw [hout, hfour.mpr ⟨e1, e2, e3, e4⟩]
  · exact ⟨_, _, _, rfl, rfl, rfl, by rw [throttleCommand_eq]; rfl,
      by rw [throttleCommand_eq]; rfl, fanCommand_length _ _, fanCommand_device _ _,
      fanCommand_length _ _, fanCommand_device _ _⟩

/-- Witness of C4: one profile with both curves, every call succeeding. -/
theorem NextProfile_order_of_calls_witness :
    (NextProfile okEnv ⟨[sampleProfile], -1⟩ []).2.2 = Outcome.ret "A" none ∧
    (NextProfile okEnv ⟨[sampleProfile], -1⟩ []).2.1 =
      [Call.controlWrite [0x44, 0x45, 0x56, 0x53, 0x08, 0, 0, 0, 0x75, 0, 0x12, 0, 0x02, 0, 0, 0],
       Call.controlWrite [0x44, 0x45, 0x56, 0x53, 0x14, 0, 0, 0, 0x24, 0, 0x11, 0,
         60, 30, 0xFF, 0xFF, 0xFF, 0xFF, 0xFF, 0xFF, 0xFF, 0xFF, 0xFF, 0xFF, 0xFF, 0xFF, 0xFF, 0xFF],
       Call.controlWrite [0x44, 0x45, 0x56, 0x53, 0x14, 0, 0, 0, 0x25, 0, 0x11, 0,
         60, 30, 0xFF, 0xFF, 0xFF, 0xFF, 0xFF, 0xFF, 0xFF, 0xFF, 0xFF, 0xFF, 0xFF, 0xFF, 0xFF, 0xFF],
       Call.powercfgSet "Balanced"] ∧
    (NextProfile okEnv ⟨[sampleProfile], -1⟩ []).1.currentProfile = 0 := by
  have hout : (NextProfile okEnv ⟨[sampleProfile], -1⟩ []).2.2 = Outcome.ret "A" none := by
    decide
  have h := (NextProfile_order_of_calls okEnv ⟨[sampleProfile], -1⟩ [] sampleProfile
    sampleTable sampleTable (by decide) (by decide) rfl rfl).2.1 "A" hout
  refine ⟨hout, ?_, ?_⟩
  · rw [h.1]; decide
  · rw [h.2.2.2.2.2.1]; decide

/-- C5: when a step of `NextProfile` fails after the steps before it succeeded,
the call stops there: the trace grows by the steps made so far and the failing
one, no later step is made, the name returned is empty, the error is the one of
the failing step, and the manager (so `currentProfile`) is as before the call.
The failing step is the throttle-plan write, a fan write of a curve the profile
has, or the power-plan activation.  In particular a failing throttle-plan write
is the only call made. -/
theorem NextProfile_stops_at_failure (env : Env) (t : Thermal) (tr : List Call)
    (profile : thermalProfile) (done later : List Call) (c : Call) (e : String)
    (hnext : 0 ≤ nextIndex t) (hp : t.profiles[(nextIndex t).toNat]? = some profile)
    (hsteps : profileCalls profile = done ++ c :: later)
    (hdone : performAll env tr done = (tr ++ done, none))
    (hfail : env (tr ++ done) c = some e) :
    NextProfile env t tr = (t, tr ++ done ++ [c], Outcome.ret "" (some e)) ∧
    (NextProfile env t tr).1.currentProfile = t.currentProfile ∧
    (c = throttleWrite profile ∨
      (∃ table, profile.cpuFanCurve = some table ∧ c = fanWrite cpuFanCurveDevice table) ∨
      (∃ table, profile.gpuFanCurve = some table ∧ c = fanWrite gpuFanCurveDevice table) ∨
      c = powerPlanCall profile) ∧
    (∀ e1, env tr (throttleWrite profile) = some e1 →
      NextProfile env t tr = (t, tr ++ [throttleWrite profile], Outcome.ret "" (some e1))) := by
  have hmain : NextProfile env t tr = (t, tr ++ done ++ [c], Outcome.ret "" (some e)) := by
    rw [NextProfile_eq env t tr profile hnext hp, hsteps,
      performAll_fail env done later c tr e hdone hfail]
  refine ⟨hmain, by rw [hmain], ?_, ?_⟩
  · have hmem : c ∈ profileCalls profile := by rw [hsteps]; simp
    unfold profileCalls at hmem
    rcases List.mem_cons.mp hmem with h | h
    · exact Or.inl h
    · rcases List.mem_append.mp h with h | h
      · cases hc : profile.cpuFanCurve with
        | none => rw [hc, fanCalls_none] at h; simp at h
        | some table =>
          rw [hc, fanCalls_some] at h
          exact Or.inr (Or.inl ⟨table, rfl, List.mem_singleton.mp h⟩)
      · rcases List.mem_append.mp h with h | h
        · cases hg : profile.gpuFanCurve with
          | none => rw [hg, fanCalls_none] at h; simp at h
          | some table =>
            rw [hg, fanCalls_some] at h
            exact Or.inr (Or.inr (Or.inl ⟨table, rfl, List.mem_singleton.mp h⟩))
        · exact Or.inr (Or.inr (Or.inr (List.mem_singleton.mp h)))
  · intro e1 h1
    rw [NextProfile_eq env t tr profile hnext hp]
    have h2 := performAll_fail env []
      (fanCalls cpuFanCurveDevice (FanTable.Bytes profile.cpuFanCurve) ++
        (fanCalls gpuFanCurveDevice (FanTable.Bytes profile.gpuFanCurve) ++
          [Call.powercfgSet profile.windowsPowerPlan]))
      (throttleWrite profile) tr e1 (by simp [performAll]) (by simpa using h1)
    rw [List.nil_append, List.append_nil] at h2
    unfold profileCalls
    rw [show Call.controlWrite (throttleCommand profile.throttlePlan) = throttleWrite profile
      from rfl, h2]

/-- Witness of C5: the GPU fan write fails after the throttle-plan write and
the CPU fan write succeeded; the power plan is not activated. -/
theorem NextProfile_stops_at_failure_witness :
    NextProfile (failOn (fanWrite gpuFanCurveDevice sampleTable) "device error")
        ⟨[bareProfile, sampleProfile], 0⟩ [] =
      (⟨[bareProfile, sampleProfile], 0⟩,
        [throttleWrite sampleProfile, fanWrite cpuFanCurveDevice sampleTable,
          fanWrite gpuFanCurveDevice sampleTable],
        Outcome.ret "" (some "device error")) :=
  (NextProfile_stops_at_failure (failOn (fanWrite gpuFanCurveDevice sampleTable) "device error")
    ⟨[bareProfile, sampleProfile], 0⟩ [] sampleProfile
    [throttleWrite sampleProfile, fanWrite cpuFanCurveDevice sampleTable]
    [powerPlanCall sampleProfile] (fanWrite gpuFanCurveDevice sampleTable) "device error"
    (by decide) (by decide) (by decide) (by decide) (by decide)).1

/-- With one curve absent, the steps are those of the other device only. -/
theorem absent_curve_steps (env : Env) (t : Thermal) (tr : List Call)
    (profile : thermalProfile) (device other : Byte) (curve : Option FanTable)
    (hnext : 0 ≤ nextIndex t) (hp : t.profiles[(nextIndex t).toNat]? = some profile)
    (hsteps : profileCalls profile =
      (throttleWrite profile :: fanCalls device (FanTable.Bytes curve)) ++
        [powerPlanCall profile])
    (hne : other ≠ device) (h75 : other ≠ 0x75) :
    (∃ calls, (NextProfile env t tr).2.1 = tr ++ calls ∧
      ∀ buf, Call.controlWrite buf ∈ calls → buf[8]? ≠ some other) ∧
    (performAll env tr (throttleWrite profile :: fanCalls device (FanTable.Bytes curve))
        = (tr ++ throttleWrite profile :: fanCalls device (FanTable.Bytes curve), none) →
      (NextProfile env t tr).2.1 =
        tr ++ (throttleWrite profile :: fanCalls device (FanTable.Bytes curve)) ++
          [powerPlanCall profile] ∧
      (NextProfile env t tr).2.2 =
        match env (tr ++ throttleWrite profile :: fanCalls device (FanTable.Bytes curve))
            (powerPlanCall profile) with
        | some err => Outcome.ret "" (some err)
        | none => Outcome.ret profile.name none) := by
  have htr := NextProfile_trace env t tr profile hnext hp
  have hout := NextProfile_outcome env t tr profile hnext hp
  constructor
  · obtain ⟨n, h1, _, _⟩ := performAll_trace env (profileCalls profile) tr
    refine ⟨(profileCalls profile).take n, by rw [htr, h1], ?_⟩
    intro buf hmem
    have hmem2 : Call.controlWrite buf ∈ profileCalls profile := List.mem_of_mem_take hmem
    rw [hsteps] at hmem2
    rcases List.mem_append.mp hmem2 with h | h
    · rcases List.mem_cons.mp h with h | h
      · have hb : buf = throttleCommand profile.throttlePlan := by
          simpa [throttleWrite] using h
        rw [hb, throttleCommand_eq]
        intro hc
        exact h75 (Option.some.inj hc).symm
      · cases curve with
        | none => rw [fanCalls_none] at h; simp at h
        | some table =>
          rw [fanCalls_some] at h
          have hb : buf = fanCommand device (FanTable.Bytes (some table)) := by
            simpa [fanWrite] using h
          rw [hb, fanCommand_device]
          intro hc
          exact hne (Option.some.inj hc).symm
    · simp [powerPlanCall] at h
  · intro hdone
    have hall : performAll env tr (profileCalls profile) =
        performAll env (tr ++ throttleWrite profile :: fanCalls device (FanTable.Bytes curve))
          [powerPlanCall profile] := by
      rw [hsteps, performAll_append, hdone]
    rw [htr, hout, hall]
    simp only [performAll]
    cases env (tr ++ throttleWrite profile :: fanCalls device (FanTable.Bytes curve))
      (powerPlanCall profile) <;> simp

/-- C6: when `NextProfile` advances to a profile whose GPU curve is absent, no
buffer with byte 8 = 0x25 is written on the control channel, and the absence is
no error: once the throttle-plan write and the CPU fan write (if the profile
has a CPU curve) have succeeded, the next call is the power-plan activation,
whose answer decides the outcome.  The same holds with the devices exchanged:
an absent CPU curve, byte 0x24, and the GPU fan write. -/
theorem NextProfile_skips_absent_curve (env : Env) (t : Thermal) (tr : List Call)
    (profile : thermalProfile)
    (hnext : 0 ≤ nextIndex t) (hp : t.profiles[(nextIndex t).toNat]? = some profile) :
    (profile.gpuFanCurve = none →
      (∃ calls, (NextProfile env t tr).2.1 = tr ++ calls ∧
        ∀ buf, Call.controlWrite buf ∈ calls → buf[8]? ≠ some gpuFanCurveDevice) ∧
      (performAll env tr
          (throttleWrite profile :: fanCalls cpuFanCurveDevice (FanTable.Bytes profile.cpuFanCurve))
        = (tr ++ throttleWrite profile ::
            fanCalls cpuFanCurveDevice (FanTable.Bytes profile.cpuFanCurve), none) →
        (NextProfile env t tr).2.1 =
          tr ++ (throttleWrite profile ::
            fanCalls cpuFanCurveDevice (FanTable.Bytes profile.cpuFanCurve)) ++
            [powerPlanCall profile] ∧
        (NextProfile env t tr).2.2 =
          match env (tr ++ throttleWrite profile ::
              fanCalls cpuFanCurveDevice (FanTable.Bytes profile.cpuFanCurve))
              (powerPlanCall profile) with
          | some err => Outcome.ret "" (some err)
          | none => Outcome.ret profile.name none)) ∧
    (profile.cpuFanCurve = none →
      (∃ calls, (NextProfile env t tr).2.1 = tr ++ calls ∧
        ∀ buf, Call.controlWrite buf ∈ calls → buf[8]? ≠ some cpuFanCurveDevice) ∧
      (performAll env tr
          (throttleWrite profile :: fanCalls gpuFanCurveDevice (FanTable.Bytes profile.gpuFanCurve))
        = (tr ++ throttleWrite profile ::
            fanCalls gpuFanCurveDevice (FanTable.Bytes profile.gpuFanCurve), none) →
        (NextProfile env t tr).2.1 =
          tr ++ (throttleWrite profile ::
            fanCalls gpuFanCurveDevice (FanTable.Bytes profile.gpuFanCurve)) ++
            [powerPlanCall profile] ∧
        (NextProfile env t tr).2.2 =
          match env (tr ++ throttleWrite profile ::
              fanCalls gpuFanCurveDevice (FanTable.Bytes profile.gpuFanCurve))
              (powerPlanCall profile) with
          | some err => Outcome.ret "" (some err)
          | none => Outcome.ret profile.name none)) := by
  constructor
  · intro hg
    refine absent_curve_steps env t tr profile cpuFanCurveDevice gpuFanCurveDevice
      profile.cpuFanCurve hnext hp ?_ (by decide) (by decide)
    unfold profileCalls
    rw [hg, fanCalls_none]
    rfl
  · intro hc
    refine absent_curve_steps env t tr profile gpuFanCurveDevice cpuFanCurveDevice
      profile.gpuFanCurve hnext hp ?_ (by decide) (by decide)
    unfold profileCalls
    rw [hc, fanCalls_none]
    simp [throttleWrite, powerPlanCall]

/-- Witness of C6: a profile with a CPU curve only; three calls are made, the
last of them the power-plan activation. -/
theorem NextProfile_skips_absent_curve_witness :
    (NextProfile okEnv ⟨[cpuOnlyProfile], -1⟩ []).2.1 =
      [throttleWrite cpuOnlyProfile, fanWrite cpuFanCurveDevice sampleTable,
        powerPlanCall cpuOnlyProfile] ∧
    (NextProfile okEnv ⟨[cpuOnlyProfile], -1⟩ []).2.2 = Outcome.ret "C" none := by
  have h := ((NextProfile_skips_absent_curve okEnv ⟨[cpuOnlyProfile], -1⟩ [] cpuOnlyProfile
    (by decide) (by decide)).1 rfl).2 (by decide)
  exact ⟨h.1.trans (by decide), h.2.trans (by decide)⟩

/-! ## C3, C7, C8: cycling and the index invariant -/

/-- Under the invariant `next` is `(currentProfile + 1) mod N`, an index of
the list. -/
theorem nextIndex_inBounds (t : Thermal) (hne : t.profiles ≠ [])
    (hlen : t.profiles.length < 2 ^ 63) (hinv : indexInvariant t) :
    nextIndex t = (t.currentProfile + 1) % (t.profiles.length : Int) ∧
      0 ≤ nextIndex t ∧ nextIndex t < t.profiles.length ∧
      ∃ profile, t.profiles[(nextIndex t).toNat]? = some profile := by
  have hpos : 0 < t.profiles.length := List.length_pos.mpr hne
  have hposZ : (0 : Int) < t.profiles.length := by exact_mod_cast hpos
  have hlo : -1 ≤ t.currentProfile := by
    rcases hinv with h | h <;> omega
  have hhi : t.currentProfile < t.profiles.length := by
    rcases hinv with h | h <;> omega
  have heq := nextIndex_eq t hlo hhi hlen
  have h0 : 0 ≤ nextIndex t := by
    rw [heq]; exact Int.emod_nonneg _ (by omega)
  have h1 : nextIndex t < t.profiles.length := by
    rw [heq]; exact Int.emod_lt_of_pos _ hposZ
  have h2 : (nextIndex t).toNat < t.profiles.length := by
    rw [Int.toNat_lt h0]; exact h1
  exact ⟨heq, h0, h1, t.profiles[(nextIndex t).toNat], List.getElem?_eq_getElem h2⟩

/-- When every call succeeds, the `j`-th of `k` successive calls (counted from
0) returns the name of the profile `j` places after `next`, cyclically. -/
theorem nextProfileTimes_ok (env : Env) (hok : ∀ hist c, env hist c = none) (k : Nat) :
    ∀ (t : Thermal) (tr : List Call) (c : Nat), t.profiles ≠ [] →
      t.profiles.length < 2 ^ 63 → t.currentProfile + 1 = c → c ≤ t.profiles.length →
      (nextProfileTimes env k t tr).1.profiles = t.profiles ∧
      (1 ≤ k → (nextProfileTimes env k t tr).1.currentProfile
        = ((c + (k - 1)) % t.profiles.length : Nat)) ∧
      (nextProfileTimes env k t tr).2.2.length = k ∧
      ∀ j, j < k → ∃ profile, t.profiles[(c + j) % t.profiles.length]? = some profile ∧
        (nextProfileTimes env k t tr).2.2[j]? = some (Outcome.ret profile.name none) := by
  induction k with
  | zero =>
    intro t tr c _ _ _ _
    exact ⟨rfl, by omega, rfl, by omega⟩
  | succ k ih =>
    intro t tr c hne hlen hc hcN
    have hpos : 0 < t.profiles.length := List.length_pos.mpr hne
    have hinv : indexInvariant t := by
      unfold indexInvariant
      omega
    obtain ⟨heq, h0, h1, profile, hp⟩ := nextIndex_inBounds t hne hlen hinv
    have hidx : nextIndex t = ((c % t.profiles.length : Nat) : Int) := by
      rw [heq, hc]; norm_cast
    have hstep := NextProfile_ok env hok t tr profile h0 hp
    have hp2 : t.profiles[c % t.profiles.length]? = some profile := by
      rw [hidx] at hp; simpa using hp
    have hlt : c % t.profiles.length < t.profiles.length := Nat.mod_lt _ hpos
    obtain ⟨i1, i2, i3, i4⟩ := ih ⟨t.profiles, nextIndex t⟩ (tr ++ profileCalls profile)
      (c % t.profiles.length + 1) hne hlen (by simp only [hidx]; norm_cast)
      (by show c % t.profiles.length + 1 ≤ t.profiles.length; omega)
    simp only [nextProfileTimes, hstep]
    refine ⟨i1, fun _ => ?_, by simp [i3], ?_⟩
    · rcases Nat.eq_zero_or_pos k with hk | hk
      · subst hk
        simp [nextProfileTimes, hidx]
      · rw [i2 hk]
        congr 1
        show (c % t.profiles.length + 1 + (k - 1)) % t.profiles.length
          = (c + (k + 1 - 1)) % t.profiles.length
        rw [Nat.add_assoc, Nat.mod_add_mod]
        congr 1
        omega
    · intro j hj
      cases j with
      | zero => exact ⟨profile, by simpa using hp2, by simp⟩
      | succ j =>
        obtain ⟨q, hq1, hq2⟩ := i4 j (by omega)
        refine ⟨q, ?_, by simpa using hq2⟩
        rw [← hq1]
        show t.profiles[(c + (j + 1)) % t.profiles.length]?
          = t.profiles[(c % t.profiles.length + 1 + j) % t.profiles.length]?
        rw [Nat.add_assoc (c % t.profiles.length), Nat.mod_add_mod, Nat.add_comm 1 j]

/-- C3: from `currentProfile = -1` with a non-empty profile list of length N,
when every control-channel write and every power-plan activation succeeds, the
k-th call of `NextProfile` (k ≥ 1) returns the name of `profiles[(k-1) mod N]`
without error and leaves `currentProfile = (k-1) mod N`; the profile list is
never changed.  (A Go slice has fewer than 2^63 elements.) -/
theorem NextProfile_cycles (env : Env) (t : Thermal) (tr : List Call) (k : Nat)
    (hok : ∀ hist c, env hist c = none) (hne : t.profiles ≠ [])
    (hlen : t.profiles.length < 2 ^ 63) (hcur : t.currentProfile = -1) (hk : 1 ≤ k) :
    ∃ profile, t.profiles[(k - 1) % t.profiles.length]? = some profile ∧
      (nextProfileTimes env k t tr).2.2[k - 1]? = some (Outcome.ret profile.name none) ∧
      (nextProfileTimes env k t tr).1.currentProfile = ((k - 1) % t.profiles.length : Nat) ∧
      (nextProfileTimes env k t tr).1.profiles = t.profiles := by
  obtain ⟨h1, h2, _, h4⟩ := nextProfileTimes_ok env hok k t tr 0 hne hlen (by rw [hcur]; rfl)
    (Nat.zero_le _)
  obtain ⟨profile, hp, hout⟩ := h4 (k - 1) (by omega)
  rw [Nat.zero_add] at hp
  refine ⟨profile, hp, hout, ?_, h1⟩
  rw [h2 hk, Nat.zero_add]

/-- Witness of C3: with the profiles A, B, C the first four calls return
A, B, C, A. -/
theorem NextProfile_cycles_witness :
    (nextProfileTimes okEnv 4 ⟨[sampleProfile, bareProfile, cpuOnlyProfile], -1⟩ []).2.2
      = [Outcome.ret "A" none, Outcome.ret "B" none, Outcome.ret "C" none,
         Outcome.ret "A" none] ∧
    (nextProfileTimes okEnv 4 ⟨[sampleProfile, bareProfile, cpuOnlyProfile], -1⟩ []).2.2[3]?
      = some (Outcome.ret "A" none) ∧
    (nextProfileTimes okEnv 4
      ⟨[sampleProfile, bareProfile, cpuOnlyProfile], -1⟩ []).1.currentProfile = 0 := by
  obtain ⟨profile, hp, hout, hcur, _⟩ := NextProfile_cycles okEnv
    ⟨[sampleProfile, bareProfile, cpuOnlyProfile], -1⟩ [] 4 (fun _ _ => rfl) (by decide)
    (by decide) rfl (by decide)
  have hprof : profile = sampleProfile := by
    have : some sampleProfile = some profile := hp
    exact (Option.some.inj this).symm
  subst hprof
  exact ⟨by decide, hout, hcur⟩

/-- C7: on a freshly constructed manager (no profile, `currentProfile = -1`),
after one call of `Default`, five successive calls of `NextProfile` in which
every external call succeeds return "Fanless", "Silent", "Performance",
"Turbo", "Fanless", each without error. -/
theorem builtin_profiles_cycle (env : Env) (hok : ∀ hist c, env hist c = none) :
    ∃ t0 t1 tr1,
      NewThermal (.ok ()) (.ok ()) = .ok t0 ∧ t0.profiles = [] ∧ t0.currentProfile = -1 ∧
      Default t0 [] = some (t1, tr1) ∧
      (nextProfileTimes env 5 t1 tr1).2.2 =
        [Outcome.ret "Fanless" none, Outcome.ret "Silent" none,
         Outcome.ret "Performance" none, Outcome.ret "Turbo" none,
         Outcome.ret "Fanless" none] := by
  have henv : env = okEnv := funext fun hist => funext fun c => hok hist c
  subst henv
  refine ⟨⟨[], -1⟩, ((Default ⟨[], -1⟩ []).getD (⟨[], -1⟩, [])).1,
    ((Default ⟨[], -1⟩ []).getD (⟨[], -1⟩, [])).2, rfl, rfl, rfl, ?_, ?_⟩
  · decide
  · decide

/-- Witness of C7: the environment in which every call succeeds. -/
theorem builtin_profiles_cycle_witness :
    ∃ t1 tr1, Default ⟨[], -1⟩ [] = some (t1, tr1) ∧
      (nextProfileTimes okEnv 5 t1 tr1).2.2 =
        [Outcome.ret "Fanless" none, Outcome.ret "Silent" none,
         Outcome.ret "Performance" none, Outcome.ret "Turbo" none,
         Outcome.ret "Fanless" none] := by
  obtain ⟨t0, t1, tr1, h0, h1, h2, h3, h4⟩ := builtin_profiles_cycle okEnv (fun _ _ => rfl)
  have ht0 : t0 = ⟨[], -1⟩ := by
    cases t0
    simp only at h1 h2
    rw [h1, h2]
  rw [ht0] at h3
  exact ⟨t1, tr1, h3, h4⟩

/-- C8: the index invariant holds for every manager `NewThermal` returns, and
`NewThermal` returns one when both collaborators are created.  On a manager
with a non-empty profile list (of fewer than 2^63 elements, as every Go slice)
that satisfies the invariant, `next` is `(currentProfile + 1) mod N`, lies in
`0 .. N-1`, the lookup `profiles[next]` succeeds, `NextProfile` does not panic,
and the invariant holds after the call whatever the environment answers. -/
theorem indexInvariant_preserved :
    (∀ ctrl power t0, NewThermal ctrl power = .ok t0 → indexInvariant t0) ∧
    NewThermal (.ok ()) (.ok ()) = .ok ⟨[], -1⟩ ∧
    (∀ (env : Env) (t : Thermal) (tr : List Call), t.profiles ≠ [] →
      t.profiles.length < 2 ^ 63 → indexInvariant t →
        nextIndex t = (t.currentProfile + 1) % (t.profiles.length : Int) ∧
        0 ≤ nextIndex t ∧ nextIndex t < t.profiles.length ∧
        (∃ profile, t.profiles[(nextIndex t).toNat]? = some profile) ∧
        (NextProfile env t tr).2.2 ≠ Outcome.panic ∧
        (NextProfile env t tr).1.profiles = t.profiles ∧
        indexInvariant (NextProfile env t tr).1) := by
  refine ⟨?_, rfl, ?_⟩
  · intro ctrl power t0 h
    rcases ctrl with e | u
    · simp [NewThermal] at h
    · rcases power with e | v
      · simp [NewThermal] at h
      · simp only [NewThermal, Except.ok.injEq] at h
        rw [← h]
        exact Or.inl rfl
  · intro env t tr hne hlen hinv
    obtain ⟨heq, h0, h1, profile, hp⟩ := nextIndex_inBounds t hne hlen hinv
    have hout := NextProfile_outcome env t tr profile h0 hp
    have hman := NextProfile_manager env t tr profile h0 hp
    refine ⟨heq, h0, h1, ⟨profile, hp⟩, ?_, ?_, ?_⟩
    · rw [hout]
      cases (performAll env tr (profileCalls profile)).2 <;> simp
    · rw [hman]
      cases (performAll env tr (profileCalls profile)).2 <;> rfl
    · rw [hman]
      cases (performAll env tr (profileCalls profile)).2 with
      | none => exact Or.inr ⟨h0, h1⟩
      | some e => exact hinv

/-- Witness of C8: at the last index of a list of two profiles `next` wraps to
0, with a failing and with a succeeding environment. -/
theorem indexInvariant_preserved_witness :
    nextIndex ⟨[bareProfile, sampleProfile], 1⟩ = 0 ∧
    indexInvariant (NextProfile okEnv ⟨[bareProfile, sampleProfile], 1⟩ []).1 ∧
    indexInvariant
      (NextProfile (failOn (throttleWrite bareProfile) "device error")
        ⟨[bareProfile, sampleProfile], 1⟩ []).1 := by
  have h := indexInvariant_preserved.2.2
  have h1 := h okEnv ⟨[bareProfile, sampleProfile], 1⟩ [] (by decide) (by decide) (by decide)
  have h2 := h (failOn (throttleWrite bareProfile) "device error")
    ⟨[bareProfile, sampleProfile], 1⟩ [] (by decide) (by decide) (by decide)
  exact ⟨h1.1.trans (by decide), h1.2.2.2.2.2.2, h2.2.2.2.2.2.2⟩

/-! ## C9, C10: `Default` -/

/-- The loop of `Default` only appends: started from `profiles` it gives
`profiles` followed by what it gives from the empty list. -/
theorem defaultLoop_append (rows : List defaultRow) :
    ∀ profiles : List thermalProfile,
      defaultLoop rows profiles = (defaultLoop rows []).map (profiles ++ ·) := by
  induction rows with
  | nil => intro profiles; simp [defaultLoop]
  | cons d ds ih =>
    intro profiles
    simp only [defaultLoop]
    cases defaultProfile d with
    | none => rfl
    | some p =>
      simp only []
      rw [ih (profiles ++ [p]), ih ([] ++ [p])]
      cases defaultLoop ds [] with
      | none => rfl
      | some ps => simp

theorem defaultLoop_defaults : defaultLoop defaults [] = some builtProfiles := by
  decide

theorem Default_eq (t : Thermal) (tr : List Call) :
    Default t tr =
      some (⟨t.profiles ++ builtProfiles, t.currentProfile⟩, tr ++ [Call.powercfgDefault]) := by
  unfold Default
  rw [defaultLoop_append, defaultLoop_defaults]
  rfl

/-- C9, as the code has it: `Default` does not panic; it appends the four
built-in profiles Fanless, Silent, Performance, Turbo, in that order, to the
profile list it finds, and leaves `currentProfile` as it is.  On a manager with
an empty list and `currentProfile = -1`, as `NewThermal` returns it, the list
afterwards is exactly these four and `currentProfile` is -1. -/
theorem Default_appends_builtin_profiles (t : Thermal) (tr : List Call) :
    ∃ added : List thermalProfile,
      Default t tr =
        some (⟨t.profiles ++ added, t.currentProfile⟩, tr ++ [Call.powercfgDefault]) ∧
      added.map (fun p => p.name) = ["Fanless", "Silent", "Performance", "Turbo"] ∧
      added.map (fun p => p.windowsPowerPlan)
        = ["Power saver", "Power saver", "High performance", "High performance"] ∧
      added.map (fun p => p.throttlePlan)
        = [throttlePlanSilent, throttlePlanSilent, throttlePlanPerformance,
           throttlePlanTurbo] ∧
      added.map (fun p => p.cpuFanCurve.isSome) = [true, true, false, false] ∧
      added.map (fun p => p.gpuFanCurve.isSome) = [true, true, false, false] ∧
      Default ⟨[], -1⟩ tr = some (⟨added, -1⟩, tr ++ [Call.powercfgDefault]) :=
  ⟨builtProfiles, Default_eq t tr, rfl, rfl, rfl, rfl, rfl, Default_eq ⟨[], -1⟩ tr⟩

/-- Counterexample to C9 as stated: `Default` called on a manager that already
holds the built-in profiles and has advanced to index 0 gives eight profiles
and leaves `currentProfile = 0`. -/
theorem Default_on_used_manager :
    ∃ t1 tr1 t2 tr2 t3 tr3,
      Default ⟨[], -1⟩ [] = some (t1, tr1) ∧
      NextProfile okEnv t1 tr1 = (t2, tr2, Outcome.ret "Fanless" none) ∧
      t2.currentProfile = 0 ∧
      Default t2 tr2 = some (t3, tr3) ∧
      t3.profiles.map (fun p => p.name) =
        ["Fanless", "Silent", "Performance", "Turbo",
         "Fanless", "Silent", "Performance", "Turbo"] ∧
      t3.currentProfile = 0 ∧
      ¬ (t3.profiles.map (fun p => p.name) = ["Fanless", "Silent", "Performance", "Turbo"] ∧
          t3.currentProfile = -1) := by
  refine ⟨⟨builtProfiles, -1⟩, [Call.powercfgDefault], ⟨builtProfiles, 0⟩,
    [Call.powercfgDefault] ++ profileCalls
      ⟨"Fanless", "Power saver", throttlePlanSilent, some fanlessCpuTable, some fanlessCpuTable⟩,
    ⟨builtProfiles ++ builtProfiles, 0⟩, _, ?_, ?_, rfl, Default_eq _ _, ?_, rfl, ?_⟩
  · decide
  · decide
  · decide
  · decide

/-- C10, the code at a fresh manager: the GPU table of Fanless and of Silent is
the table parsed from the profile's CPU literal, which differs from the table
parsed from its GPU literal (at 79c the GPU literal has 34%, the CPU literal
31%); the CPU table is the one parsed from the CPU literal. -/
theorem Default_gpu_table_from_cpu_literal :
    ∃ t1 tr1 fanless silent,
      Default ⟨[], -1⟩ [] = some (t1, tr1) ∧
      t1.profiles[0]? = some fanless ∧ t1.profiles[1]? = some silent ∧
      fanless.name = "Fanless" ∧ silent.name = "Silent" ∧
      fanless.cpuFanCurve = (NewFanTable
        "39c:0%,49c:0%,59c:0%,69c:0%,79c:31%,89c:49%,99c:56%,109c:56%").toOption ∧
      fanless.gpuFanCurve = (NewFanTable
        "39c:0%,49c:0%,59c:0%,69c:0%,79c:31%,89c:49%,99c:56%,109c:56%").toOption ∧
      fanless.gpuFanCurve ≠ (NewFanTable
        "39c:0%,49c:0%,59c:0%,69c:0%,79c:34%,89c:51%,99c:61%,109c:61%").toOption ∧
      silent.cpuFanCurve = (NewFanTable
        "39c:10%,49c:10%,59c:10%,69c:10%,79c:31%,89c:49%,99c:56%,109c:56%").toOption ∧
      silent.gpuFanCurve = (NewFanTable
        "39c:10%,49c:10%,59c:10%,69c:10%,79c:31%,89c:49%,99c:56%,109c:56%").toOption ∧
      silent.gpuFanCurve ≠ (NewFanTable
        "39c:0%,49c:0%,59c:0%,69c:0%,79c:34%,89c:51%,99c:61%,109c:61%").toOption ∧
      (NewFanTable
        "39c:0%,49c:0%,59c:0%,69c:0%,79c:34%,89c:51%,99c:61%,109c:61%").toOption
        = some gpuLiteralTable ∧
      FanTable.Bytes fanless.gpuFanCurve
        = [39, 0, 49, 0, 59, 0, 69, 0, 79, 31, 89, 49, 99, 56, 109, 56] ∧
      FanTable.Bytes (some gpuLiteralTable)
        = [39, 0, 49, 0, 59, 0, 69, 0, 79, 34, 89, 51, 99, 61, 109, 61] := by
  refine ⟨⟨builtProfiles, -1⟩, [Call.powercfgDefault],
    ⟨"Fanless", "Power saver", throttlePlanSilent, some fanlessCpuTable, some fanlessCpuTable⟩,
    ⟨"Silent", "Power saver", throttlePlanSilent, some silentCpuTable, some silentCpuTable⟩,
    Default_eq _ _, rfl, rfl, rfl, rfl, ?_, ?_, ?_, ?_, ?_, ?_, ?_, ?_, ?_⟩ <;> decide

end thermal
